import Mathlib

/-!
Verification development for the streaming chat client in
`sophia_prototype_v12.py` (the single source file of the repository).

The embedding models, directly from the source:
  - the JSON values produced by `json.loads` (type `JVal`), together with the
    Python dictionary operations the decoder uses (`.get` with a default,
    truthiness, indexing with `[0]`);
  - a JSON reader `jsonParse` standing for `json.loads` restricted to the JSON
    subset the chat streams use (strings with the simple escapes, integers,
    booleans, null, arrays, objects; floats and unicode escapes are not needed
    by any stream line considered here and are rejected);
  - the per-line decode step and the line loop of `generate_response`
    (lines 228-304 of the source), including the non-200 path, the
    empty-stream sentinel, the network-error path and the outermost
    exception handler;
  - the retry loop of `probe_backend_url` (lines 79-120), with the outcome of
    each attempt supplied as data;
  - `BACKEND_CONFIG`, `auto_detect_endpoint` (lines 137-145) and the fallback
    expression used by `run_prototype` (line 456);
  - the outcome classification of `test_model` (lines 343-360).

Network transport, logging to the Python logger, Streamlit session state and
the request payload assembly are outside the decoded behaviour the claims
talk about; the response is therefore supplied to `generate_response` as
data (status, body lines, body text), exactly the information the code reads
from it.
-/

/-- JSON values as produced by the `json.loads` calls in the source.
Numbers are restricted to integers: no stream line considered by the
specification carries a float. -/
inductive JVal where
  | null
  | bool (b : Bool)
  | num (n : Int)
  | str (s : String)
  | arr (elems : List JVal)
  | obj (fields : List (String × JVal))

/-- Python dictionary lookup on the field list of a JSON object. `json.loads`
builds a dict in which a later duplicate key overwrites an earlier one, so the
last binding wins. -/
def pyLookup (fields : List (String × JVal)) (k : String) : Option JVal :=
  fields.foldl (fun acc p => if p.1 = k then some p.2 else acc) none

/-- Python `v.get(k, dflt)`. Defined only when `v` is a dict; on any other
value the attribute access raises `AttributeError`, modelled as `none`. -/
def pyGetD (v : JVal) (k : String) (dflt : JVal) : Option JVal :=
  match v with
  | JVal.obj fs => some ((pyLookup fs k).getD dflt)
  | _ => none

/-- Python truthiness of a JSON value, as used by `if content:` and
`if chunk_json.get("done"):` in the source. -/
def JVal.truthy : JVal → Bool
  | JVal.null => false
  | JVal.bool b => b
  | JVal.num n => n != 0
  | JVal.str s => s != ""
  | JVal.arr xs => !xs.isEmpty
  | JVal.obj fs => !fs.isEmpty

/-- Python `v[0]`, as in `chunk_json.get("choices", [{}])[0]`. An empty list
raises `IndexError`; indexing a string yields a one-character string; every
other receiver raises (`TypeError` on numbers and booleans, `KeyError` on a
dict without the key `0`). A raise is modelled as `none`. -/
def pyIndex0 (v : JVal) : Option JVal :=
  match v with
  | JVal.arr [] => none
  | JVal.arr (x :: _) => some x
  | JVal.str s =>
    match s.toList with
    | [] => none
    | c :: _ => some (JVal.str (String.mk [c]))
  | _ => none

/-- String content of a string fragment; used only to state concatenation
properties over fragment lists all of whose members are `JVal.str`. -/
def JVal.asStr : JVal → String
  | JVal.str s => s
  | _ => ""

/-- Characters stripped by Python `str.strip()` with no argument. -/
def isPySpace (c : Char) : Bool :=
  c = ' ' ∨ c = '\t' ∨ c = '\n' ∨ c = '\r' ∨ c = Char.ofNat 11 ∨ c = Char.ofNat 12

/-- Python `s.strip()`. -/
def pyStrip (s : String) : String :=
  String.mk (((s.toList.dropWhile isPySpace).reverse.dropWhile isPySpace).reverse)

/-- Python `s.startswith(p)`. -/
def strHasPrefix (p s : String) : Bool :=
  p.toList.isPrefixOf s.toList

/-- Python slicing `s[n:]` by characters. -/
def strDrop (n : Nat) (s : String) : String :=
  String.mk (s.toList.drop n)

/-- Python substring membership `needle in hay`. -/
def strContains (hay needle : String) : Bool :=
  (List.range (hay.toList.length + 1)).any
    (fun i => needle.toList.isPrefixOf (hay.toList.drop i))

/-- Concatenation of a list of strings in order; the reconstruction of the
full reply from the yielded fragments. -/
def concatList : List String → String
  | [] => ""
  | s :: rest => s ++ concatList rest

/-! ### A small JSON reader standing for `json.loads` -/

/-- Skip JSON whitespace. -/
def skipWs : List Char → List Char
  | [] => []
  | c :: cs => if c = ' ' ∨ c = '\t' ∨ c = '\n' ∨ c = '\r' then skipWs cs else c :: cs

/-- The double-quote character. -/
def quoteChar : Char := Char.ofNat 34

/-- Left and right brace characters, written by code point. -/
def lbraceChar : Char := Char.ofNat 123

/-- Right brace character. -/
def rbraceChar : Char := Char.ofNat 125

/-- Read the body of a JSON string literal after its opening quote,
handling the one-character escapes. Unicode escapes are rejected: no stream
line considered here contains one. -/
def parseStringBody : List Char → List Char → Option (String × List Char)
  | [], _ => none
  | c :: rest, acc =>
    if c = quoteChar then some (String.mk acc.reverse, rest)
    else if c = '\\' then
      match rest with
      | [] => none
      | e :: rest2 =>
        let ec : Option Char :=
          if e = quoteChar then some quoteChar
          else if e = '\\' then some '\\'
          else if e = '/' then some '/'
          else if e = 'n' then some '\n'
          else if e = 't' then some '\t'
          else if e = 'r' then some '\r'
          else if e = 'b' then some (Char.ofNat 8)
          else if e = 'f' then some (Char.ofNat 12)
          else none
        match ec with
        | none => none
        | some ch => parseStringBody rest2 (ch :: acc)
    else parseStringBody rest (c :: acc)

/-- Split a leading run of decimal digits from the input. -/
def takeDigits : List Char → (List Char × List Char)
  | [] => ([], [])
  | c :: cs =>
    if c.isDigit then
      let p := takeDigits cs
      (c :: p.1, p.2)
    else ([], c :: cs)

/-- Numeric value of a digit run. -/
def digitsVal (ds : List Char) : Nat :=
  ds.foldl (fun a c => a * 10 + (c.toNat - 48)) 0

/-- Mode of the JSON reader: a value, the remaining items of an array, or the
remaining entries of an object. Folding the three mutually recursive readers
into one function keeps the recursion structural in the fuel. -/
inductive PMode where
  | val
  | arrRest (acc : List JVal)
  | objRest (acc : List (String × JVal))

/-- Fuel-bounded JSON reader. Returns the value read and the unconsumed
input. -/
def parseF : Nat → PMode → List Char → Option (JVal × List Char)
  | 0, _, _ => none
  | fuel + 1, PMode.val, cs =>
    match skipWs cs with
    | [] => none
    | c :: rest =>
      if c = quoteChar then
        match parseStringBody rest [] with
        | some (s, r) => some (JVal.str s, r)
        | none => none
      else if c = '-' then
        match takeDigits rest with
        | ([], _) => none
        | (ds, r) => some (JVal.num (-(Int.ofNat (digitsVal ds))), r)
      else if c.isDigit then
        match takeDigits (c :: rest) with
        | ([], _) => none
        | (ds, r) => some (JVal.num (Int.ofNat (digitsVal ds)), r)
      else if c = 't' then
        if List.isPrefixOf ['r', 'u', 'e'] rest then some (JVal.bool true, rest.drop 3)
        else none
      else if c = 'f' then
        if List.isPrefixOf ['a', 'l', 's', 'e'] rest then some (JVal.bool false, rest.drop 4)
        else none
      else if c = 'n' then
        if List.isPrefixOf ['u', 'l', 'l'] rest then some (JVal.null, rest.drop 3)
        else none
      else if c = '[' then
        match skipWs rest with
        | d :: rest2 => if d = ']' then some (JVal.arr [], rest2) else parseF fuel (PMode.arrRest []) rest
        | [] => none
      else if c = lbraceChar then
        match skipWs rest with
        | d :: rest2 => if d = rbraceChar then some (JVal.obj [], rest2) else parseF fuel (PMode.objRest []) rest
        | [] => none
      else none
  | fuel + 1, PMode.arrRest acc, cs =>
    match parseF fuel PMode.val cs with
    | none => none
    | some (v, r) =>
      match skipWs r with
      | sep :: r2 =>
        if sep = ',' then parseF fuel (PMode.arrRest (v :: acc)) r2
        else if sep = ']' then some (JVal.arr (v :: acc).reverse, r2)
        else none
      | [] => none
  | fuel + 1, PMode.objRest acc, cs =>
    match skipWs cs with
    | k :: r =>
      if k = quoteChar then
        match parseStringBody r [] with
        | none => none
        | some (key, r2) =>
          match skipWs r2 with
          | colon :: r3 =>
            if colon = ':' then
              match parseF fuel PMode.val r3 with
              | none => none
              | some (v, r4) =>
                match skipWs r4 with
                | sep :: r5 =>
                  if sep = ',' then parseF fuel (PMode.objRest ((key, v) :: acc)) r5
                  else if sep = rbraceChar then some (JVal.obj ((key, v) :: acc).reverse, r5)
                  else none
                | [] => none
            else none
          | [] => none
      else none
    | [] => none

/-- Model of `json.loads` on one line: read a value and require the rest of
the input to be whitespace, as `json.loads` does. `none` models a raised
`json.JSONDecodeError`. -/
def jsonParse (s : String) : Option JVal :=
  match parseF (3 * s.toList.length + 8) PMode.val s.toList with
  | some (v, rest) => if skipWs rest = [] then some v else none
  | none => none

/-! ### The line-oriented decode loop of `generate_response` -/

/-- What processing one line of the response body does: continue silently,
yield a value and continue, yield a value and leave the read loop, leave the
read loop, or raise an exception that escapes the per-line handlers. -/
inductive LineAction where
  | skip
  | emit (v : JVal)
  | emitBreak (v : JVal)
  | brk
  | exn

/-- The `backend == "Ollama"` branch of the loop body (source lines 244-256):
skip blank lines, parse the line as JSON, read `message.content` through two
`.get` calls with defaults, yield the content when truthy, and leave the loop
when the `done` flag is truthy. A `json.JSONDecodeError` is caught and the
line skipped; an `AttributeError` from `.get` on a non-dict is not caught
here and escapes to the outermost handler. -/
def ollamaLineStep (line : String) : LineAction :=
  let lineStr := pyStrip line
  if lineStr = "" then LineAction.skip
  else
    match jsonParse lineStr with
    | none => LineAction.skip
    | some chunk =>
      match pyGetD chunk "message" (JVal.obj []) with
      | none => LineAction.exn
      | some msg =>
        match pyGetD msg "content" (JVal.str "") with
        | none => LineAction.exn
        | some content =>
          match pyGetD chunk "done" JVal.null with
          | none => LineAction.exn
          | some doneVal =>
            if content.truthy then
              if doneVal.truthy then LineAction.emitBreak content else LineAction.emit content
            else
              if doneVal.truthy then LineAction.brk else LineAction.skip

/-- The SSE branch of the loop body (source lines 257-271), used for every
backend other than Ollama: lines not starting with the prefix are ignored,
the payload after the prefix is stripped, the literal sentinel ends the loop,
empty payloads are skipped, the payload is parsed as JSON and
`choices[0].delta.content` is read; the content is yielded when truthy.
A parse failure is caught and skipped; an `IndexError` from `[0]` on an empty
`choices` list, or an `AttributeError` from `.get` on a non-dict, escapes. -/
def sseLineStep (line : String) : LineAction :=
  let lineStr := pyStrip line
  if strHasPrefix "data: " lineStr then
    let dataPart := pyStrip (strDrop 6 lineStr)
    if dataPart = "[DONE]" then LineAction.brk
    else if dataPart = "" then LineAction.skip
    else
      match jsonParse dataPart with
      | none => LineAction.skip
      | some chunk =>
        match pyGetD chunk "choices" (JVal.arr [JVal.obj []]) with
        | none => LineAction.exn
        | some choices =>
          match pyIndex0 choices with
          | none => LineAction.exn
          | some c0 =>
            match pyGetD c0 "delta" (JVal.obj []) with
            | none => LineAction.exn
            | some delta =>
              match pyGetD delta "content" (JVal.str "") with
              | none => LineAction.exn
              | some content =>
                if content.truthy then LineAction.emit content else LineAction.skip
  else LineAction.skip

/-- Family dispatch inside the loop body: `if backend == "Ollama"` selects the
newline-delimited-JSON branch, every other backend takes the SSE branch. -/
def lineStep (backend : String) (line : String) : LineAction :=
  if backend = "Ollama" then ollamaLineStep line else sseLineStep line

/-- Result of the read loop: the values yielded in order, the number of lines
read (`lines_processed` in the source), and whether an exception escaped the
loop. -/
structure DecodeRes where
  frags : List JVal
  linesProcessed : Nat
  exnFlag : Bool

/-- The `while True` read loop of `generate_response` (source lines 234-272)
over the list of lines the response body delivers before end of stream.
An early leave of the loop reads no further lines. -/
def decodeLoop (backend : String) : List String → DecodeRes
  | [] => ⟨[], 0, false⟩
  | line :: rest =>
    match lineStep backend line with
    | LineAction.skip =>
      let r := decodeLoop backend rest
      ⟨r.frags, r.linesProcessed + 1, r.exnFlag⟩
    | LineAction.emit v =>
      let r := decodeLoop backend rest
      ⟨v :: r.frags, r.linesProcessed + 1, r.exnFlag⟩
    | LineAction.emitBreak v => ⟨[v], 1, false⟩
    | LineAction.brk => ⟨[], 1, false⟩
    | LineAction.exn => ⟨[], 1, true⟩

/-- What the awaited `session.post` produced, carrying exactly the data
`generate_response` reads from it: the HTTP status, the body lines that
`response.content.readline()` would deliver before end of stream, and the
value of `await response.text()` on the error path (`none` models that call
itself raising, in which case the source keeps an empty error text). A
connection-level `aiohttp.ClientError` is the other constructor. -/
inductive FetchOutcome where
  | response (status : Nat) (bodyLines : List String) (bodyText : Option String)
  | clientError (msg : String)

/-- Observable outcome of one `generate_response` call: the fragments yielded
in order and the entries appended to `st.session_state.error_log`. -/
structure GenOutput where
  frags : List JVal
  errorLog : List String

/-- Model of `generate_response` (source lines 195-304) from the point where
the response is available. On a 200 status the body is decoded line by line;
if an exception escaped the loop the outermost handler yields one generic
fragment after the fragments already yielded and logs the details; otherwise,
if zero lines were processed, the one sentinel fragment is yielded. On any
other status one fragment naming the status is yielded and the full
`API Error` message, with the error body, goes to the error log only. A
connection-level error yields one network-error fragment and logs it. -/
def generate_response (backend : String) (outcome : FetchOutcome) : GenOutput :=
  match outcome with
  | FetchOutcome.clientError msg =>
    ⟨[JVal.str ("Network error: " ++ msg ++ ". Please check connection.")],
     ["Network error: " ++ msg]⟩
  | FetchOutcome.response status bodyLines bodyText =>
    if status = 200 then
      let r := decodeLoop backend bodyLines
      if r.exnFlag then
        ⟨r.frags ++ [JVal.str "Sophia encountered an unexpected problem. Details have been logged."],
         ["Unhandled exception in generate_response"]⟩
      else if r.linesProcessed = 0 then
        ⟨r.frags ++ [JVal.str "[Empty response]"], []⟩
      else ⟨r.frags, []⟩
    else
      let errorText := bodyText.getD ""
      let errorMessage := "API Error: Status " ++ toString status ++ " - " ++ errorText
      ⟨[JVal.str ("Error from AI provider (Status " ++ toString status ++ "). Check logs.")],
       [errorMessage]⟩

/-! ### The probe and the endpoint resolver -/

/-- Outcome of one probe attempt: an HTTP response with a status code, a
network-level `aiohttp.ClientError`, or an exception of any other class
(for example the `asyncio.TimeoutError` a timeout raises), which is not
caught inside the retry loop. -/
inductive AttemptOutcome where
  | status (code : Nat)
  | netErr
  | exn
deriving DecidableEq

/-- Observable outcome of one `probe_backend_url` call: the returned boolean,
the number of attempts actually made, and the number of one-second backoff
sleeps performed. -/
structure ProbeRun where
  ok : Bool
  attempts : Nat
  sleeps : Nat
deriving DecidableEq

/-- The `for attempt in range(retries)` loop of `probe_backend_url` (source
lines 94-117; the POST loop for Hugging Face and the GET loop for the other
backends are textually identical in their control flow). A status of 200 or
201 returns true at once. Any other status falls through to the next attempt
with no sleep. A network error falls through to the next attempt, sleeping
one second unless this was the last attempt. Any other exception leaves the
loop and the function returns false. -/
def probeLoop (f : Nat → AttemptOutcome) (k : Nat) : Nat → ProbeRun
  | 0 => ⟨false, 0, 0⟩
  | n + 1 =>
    match f k with
    | AttemptOutcome.status c =>
      if c = 200 ∨ c = 201 then ⟨true, 1, 0⟩
      else
        let r := probeLoop f (k + 1) n
        ⟨r.ok, r.attempts + 1, r.sleeps⟩
    | AttemptOutcome.netErr =>
      let r := probeLoop f (k + 1) n
      ⟨r.ok, r.attempts + 1, r.sleeps + (if n = 0 then 0 else 1)⟩
    | AttemptOutcome.exn => ⟨false, 1, 0⟩

/-- Model of `probe_backend_url` (source lines 79-120). The outcome of each
attempt is supplied as data; the function itself is total: every exception
the source can see is converted to a false result. -/
def probe_backend_url (backend : String) (f : Nat → AttemptOutcome) (retries : Nat := 3) : ProbeRun :=
  if backend = "Hugging Face" then probeLoop f 0 retries else probeLoop f 0 retries

/-- One entry of `BACKEND_CONFIG` (source lines 41-51), restricted to the
fields the probed and resolved paths read. -/
structure BackendCfg where
  default_url : String
  apiKeyRequired : Bool
  maxTokens : Nat
deriving DecidableEq

/-- The `BACKEND_CONFIG` table (source lines 41-51). -/
def BACKEND_CONFIG : List (String × BackendCfg) :=
  [("LM Studio", ⟨"http://127.0.0.1:1234/v1", false, 128000⟩),
   ("Ollama", ⟨"http://127.0.0.1:11434", false, 128000⟩),
   ("Hugging Face", ⟨"https://router.huggingface.co/novita/v3/openai/chat/completions", true, 40000⟩)]

/-- Python `BACKEND_CONFIG.get(backend, default)` specialised to this table. -/
def cfgGet : List (String × BackendCfg) → String → Option BackendCfg
  | [], _ => none
  | p :: rest, b => if p.1 = b then some p.2 else cfgGet rest b

/-- Model of `auto_detect_endpoint` (source lines 137-145). The probe is
supplied as a function from the candidate URL to its reachability. The
source returns the default URL when `default_url` is truthy and the probe
succeeds, and `None` otherwise. -/
def auto_detect_endpoint (probeOk : String → Bool) (backend : String) : Option String :=
  match (cfgGet BACKEND_CONFIG backend).map BackendCfg.default_url with
  | none => none
  | some u => if u = "" then none else if probeOk u then some u else none

/-- The resolution expression `run_prototype` evaluates at source line 456:
`auto_detect_endpoint(backend, ...) or BACKEND_CONFIG[backend]["default_url"]`.
An unknown backend raises `KeyError` on the subscript, modelled as `none`. -/
def resolved_backend_url (probeOk : String → Bool) (backend : String) : Option String :=
  match cfgGet BACKEND_CONFIG backend with
  | none => none
  | some cfg =>
    some (match auto_detect_endpoint probeOk backend with
          | some u => if u = "" then cfg.default_url else u
          | none => cfg.default_url)

/-- The outcome classification of `test_model` (source lines 350-354) applied
to the collected fragments: `SUCCESS` when the joined response is non-empty
and does not contain the marker `Error`, otherwise `FAIL`; the following
conditional would relabel an empty `SUCCESS` as `EMPTY_SUCCESS`. -/
def test_model_status (frags : List String) : String :=
  let fullResponse := concatList frags
  let status := if strContains fullResponse "Error" = false ∧ fullResponse ≠ "" then "SUCCESS" else "FAIL"
  if fullResponse = "" ∧ status = "SUCCESS" then "EMPTY_SUCCESS" else status

/-! ### Line classifications used to state the stream claims

A well-formed stream is quantified over through what the decoder itself
observes on each line: these predicates say that a given line is recognised
by the per-line step of the source as a content line carrying a given
content string, as a terminal line, or as a line to ignore. The concrete
scenario conjuncts and the witnesses below show actual JSON text satisfying
them through `jsonParse`. -/

/-- The line is a well-formed newline-delimited-JSON content line whose
`message.content` is `c` and whose `done` flag is absent or falsy: the
Ollama branch skips it when `c` is empty and yields `c` otherwise. -/
def NdContentLine (line c : String) : Prop :=
  ollamaLineStep line = (if c = "" then LineAction.skip else LineAction.emit (JVal.str c))

/-- The line is a well-formed newline-delimited-JSON line whose `done` flag
is truthy and whose `message.content` is `c`: the Ollama branch yields `c`
when non-empty and then leaves the read loop. -/
def NdDoneLine (line c : String) : Prop :=
  ollamaLineStep line = (if c = "" then LineAction.brk else LineAction.emitBreak (JVal.str c))

/-- Classification of one SSE stream line: `none` for a line the decoder
ignores (no `data: ` prefix, empty payload, or unparseable payload), and
`some c` for a well-formed data line whose `choices[0].delta.content` is
`c`. -/
def SseLineClass (line : String) (oc : Option String) : Prop :=
  match oc with
  | none => sseLineStep line = LineAction.skip
  | some c => sseLineStep line = (if c = "" then LineAction.skip else LineAction.emit (JVal.str c))

/-- The line is an SSE terminal line: its stripped payload after the
`data: ` prefix is the literal sentinel. -/
def SseDoneLine (line : String) : Prop :=
  sseLineStep line = LineAction.brk

/-- A probe attempt outcome the retry loop returns true on: an HTTP response
with status 200 or 201 (the `response.status in [200, 201]` test of the
source; section 6 of the specification reads success as exactly these two). -/
def probeSuccessOutcome (a : AttemptOutcome) : Prop :=
  a = AttemptOutcome.status 200 ∨ a = AttemptOutcome.status 201

/-- A probe attempt outcome the retry loop survives and retries after: a
network-level error or an HTTP response with any status other than 200 and
201. An exception of another class is neither: it aborts the call. -/
def probeFailContinue (a : AttemptOutcome) : Prop :=
  a = AttemptOutcome.netErr ∨ ∃ c, a = AttemptOutcome.status c ∧ c ≠ 200 ∧ c ≠ 201

/-! ### Helper lemmas -/

lemma lineStep_ollama (line : String) : lineStep "Ollama" line = ollamaLineStep line := by
  simp [lineStep]

lemma lineStep_not_ollama {b : String} (line : String) (h : b ≠ "Ollama") :
    lineStep b line = sseLineStep line := by
  simp [lineStep, h]

lemma decodeLoop_cons_skip {b line : String} {rest : List String}
    (h : lineStep b line = LineAction.skip) :
    decodeLoop b (line :: rest) =
      ⟨(decodeLoop b rest).frags, (decodeLoop b rest).linesProcessed + 1,
       (decodeLoop b rest).exnFlag⟩ := by
  simp [decodeLoop, h]

lemma decodeLoop_cons_emit {b line : String} {rest : List String} {v : JVal}
    (h : lineStep b line = LineAction.emit v) :
    decodeLoop b (line :: rest) =
      ⟨v :: (decodeLoop b rest).frags, (decodeLoop b rest).linesProcessed + 1,
       (decodeLoop b rest).exnFlag⟩ := by
  simp [decodeLoop, h]

lemma decodeLoop_cons_emitBreak {b line : String} {rest : List String} {v : JVal}
    (h : lineStep b line = LineAction.emitBreak v) :
    decodeLoop b (line :: rest) = ⟨[v], 1, false⟩ := by
  simp [decodeLoop, h]

lemma decodeLoop_cons_brk {b line : String} {rest : List String}
    (h : lineStep b line = LineAction.brk) :
    decodeLoop b (line :: rest) = ⟨[], 1, false⟩ := by
  simp [decodeLoop, h]

lemma decodeLoop_cons_pos (b line : String) (rest : List String) :
    (decodeLoop b (line :: rest)).linesProcessed ≠ 0 := by
  unfold decodeLoop
  cases lineStep b line <;> simp

lemma map_asStr_map_str (l : List String) : (l.map JVal.str).map JVal.asStr = l := by
  induction l with
  | nil => rfl
  | cons x xs ih => simp [JVal.asStr, ih]

lemma concatList_filter_ne (l : List String) :
    concatList (l.filter (fun c => c != "")) = concatList l := by
  induction l with
  | nil => rfl
  | cons x xs ih =>
    by_cases h : x = ""
    · subst h; simpa [concatList] using ih
    · simp [List.filter_cons, h, concatList, ih]

lemma probeLoop_attempts_le (f : Nat → AttemptOutcome) (k n : Nat) :
    (probeLoop f k n).attempts ≤ n := by
  induction n generalizing k with
  | zero => simp [probeLoop]
  | succ m ih =>
    unfold probeLoop
    cases f k with
    | status c =>
      by_cases h : c = 200 ∨ c = 201
      · simp [h]
      · simpa [h] using Nat.succ_le_succ (ih (k + 1))
    | netErr => simpa using Nat.succ_le_succ (ih (k + 1))
    | exn => simp


lemma probe_pred_congr {P : AttemptOutcome → Prop} {f : Nat → AttemptOutcome} {a b : Nat}
    (hp : P (f a)) (h : a = b) : P (f b) := h ▸ hp

lemma probeLoop_succ_eq (f : Nat → AttemptOutcome) (k n : Nat) :
    probeLoop f k (n + 1) =
      match f k with
      | AttemptOutcome.status c =>
        if c = 200 ∨ c = 201 then ⟨true, 1, 0⟩
        else
          let r := probeLoop f (k + 1) n
          ⟨r.ok, r.attempts + 1, r.sleeps⟩
      | AttemptOutcome.netErr =>
        let r := probeLoop f (k + 1) n
        ⟨r.ok, r.attempts + 1, r.sleeps + (if n = 0 then 0 else 1)⟩
      | AttemptOutcome.exn => ⟨false, 1, 0⟩ := rfl

lemma exists_shift (f : Nat → AttemptOutcome) (k m : Nat)
    (hk : probeFailContinue (f k)) (hknot : ¬ probeSuccessOutcome (f k)) :
    (∃ i, i < m ∧ probeSuccessOutcome (f (k + 1 + i)) ∧
       ∀ j, j < i → probeFailContinue (f (k + 1 + j))) ↔
    (∃ i, i < m + 1 ∧ probeSuccessOutcome (f (k + i)) ∧
       ∀ j, j < i → probeFailContinue (f (k + j))) := by
  constructor
  · rintro ⟨i, hi, hs, hf⟩
    refine ⟨i + 1, by omega, probe_pred_congr hs (by omega), ?_⟩
    intro j hj
    cases j with
    | zero => exact probe_pred_congr hk (by omega)
    | succ j0 => exact probe_pred_congr (hf j0 (by omega)) (by omega)
  · rintro ⟨i, hi, hs, hf⟩
    cases i with
    | zero => exact absurd (probe_pred_congr hs (by omega)) hknot
    | succ i0 =>
      refine ⟨i0, by omega, probe_pred_congr hs (by omega), ?_⟩
      intro j hj
      exact probe_pred_congr (hf (j + 1) (by omega)) (by omega)

lemma probeLoop_ok_iff (f : Nat → AttemptOutcome) (n k : Nat) :
    (probeLoop f k n).ok = true ↔
      ∃ i, i < n ∧ probeSuccessOutcome (f (k + i)) ∧
        ∀ j, j < i → probeFailContinue (f (k + j)) := by
  induction n generalizing k with
  | zero => simp [probeLoop]
  | succ m ih =>
    rw [probeLoop_succ_eq]
    cases hfk : f k with
    | status c =>
      by_cases h : c = 200 ∨ c = 201
      · simp only [h, if_true]
        refine iff_of_true (by trivial) ?_
        have hsk : probeSuccessOutcome (f k) := by
          rw [hfk]
          rcases h with h200 | h201
          · exact Or.inl (by rw [h200])
          · exact Or.inr (by rw [h201])
        exact ⟨0, by omega, probe_pred_congr hsk (by omega), by omega⟩
      · simp only [h, if_false]
        have hk : probeFailContinue (f k) := by
          rw [hfk]
          exact Or.inr ⟨c, rfl, fun h200 => h (Or.inl h200), fun h201 => h (Or.inr h201)⟩
        have hknot : ¬ probeSuccessOutcome (f k) := by
          rw [hfk]
          rintro (h200 | h201)
          · exact h (Or.inl (by injection h200))
          · exact h (Or.inr (by injection h201))
        exact (ih (k + 1)).trans (exists_shift f k m hk hknot)
    | netErr =>
      have hk : probeFailContinue (f k) := by rw [hfk]; exact Or.inl rfl
      have hknot : ¬ probeSuccessOutcome (f k) := by
        rw [hfk]
        rintro (h200 | h201)
        · exact AttemptOutcome.noConfusion h200
        · exact AttemptOutcome.noConfusion h201
      exact (ih (k + 1)).trans (exists_shift f k m hk hknot)
    | exn =>
      refine iff_of_false (by simp) ?_
      rintro ⟨i, hi, hs, hf⟩
      cases i with
      | zero =>
        have h2 : probeSuccessOutcome (f k) := probe_pred_congr hs (by omega)
        rw [hfk] at h2
        rcases h2 with h200 | h201
        · exact AttemptOutcome.noConfusion h200
        · exact AttemptOutcome.noConfusion h201
      | succ i0 =>
        have h2 : probeFailContinue (f k) := probe_pred_congr (hf 0 (by omega)) (by omega)
        rw [hfk] at h2
        rcases h2 with hne | ⟨c, hc, _, _⟩
        · exact AttemptOutcome.noConfusion hne
        · exact AttemptOutcome.noConfusion hc

lemma ndjson_loop (pre cs : List String) (dLine dC : String) (extra : List String)
    (hpre : List.Forall₂ NdContentLine pre cs) (hdone : NdDoneLine dLine dC) :
    decodeLoop "Ollama" (pre ++ dLine :: extra) =
      ⟨((cs ++ [dC]).filter (fun c => c != "")).map JVal.str, pre.length + 1, false⟩ := by
  induction hpre with
  | nil =>
    simp only [List.nil_append, List.length_nil]
    unfold NdDoneLine at hdone
    by_cases hc : dC = ""
    · rw [if_pos hc] at hdone
      rw [decodeLoop_cons_brk (by rw [lineStep_ollama]; exact hdone)]
      subst hc
      simp
    · rw [if_neg hc] at hdone
      rw [decodeLoop_cons_emitBreak (by rw [lineStep_ollama]; exact hdone)]
      simp [List.filter_cons, hc]
  | @cons l c pre0 cs0 h1 htail ih =>
    unfold NdContentLine at h1
    by_cases hc : c = ""
    · rw [if_pos hc] at h1
      rw [List.cons_append, decodeLoop_cons_skip (by rw [lineStep_ollama]; exact h1), ih]
      subst hc
      simp
    · rw [if_neg hc] at h1
      rw [List.cons_append, decodeLoop_cons_emit (by rw [lineStep_ollama]; exact h1), ih]
      simp [List.filter_cons, hc]

lemma sse_loop {backend : String} (hb : backend ≠ "Ollama") (pre : List String)
    (ocs : List (Option String)) (dLine : String) (extra : List String)
    (hpre : List.Forall₂ SseLineClass pre ocs) (hdone : SseDoneLine dLine) :
    decodeLoop backend (pre ++ dLine :: extra) =
      ⟨((ocs.filterMap id).filter (fun c => c != "")).map JVal.str, pre.length + 1, false⟩ := by
  induction hpre with
  | nil =>
    simp only [List.nil_append, List.length_nil]
    unfold SseDoneLine at hdone
    rw [decodeLoop_cons_brk (by rw [lineStep_not_ollama _ hb]; exact hdone)]
    simp
  | @cons l oc pre0 ocs0 h1 htail ih =>
    cases oc with
    | none =>
      have h2 : sseLineStep l = LineAction.skip := h1
      rw [List.cons_append, decodeLoop_cons_skip (by rw [lineStep_not_ollama _ hb]; exact h2), ih]
      simp
    | some c =>
      have h2 : sseLineStep l = if c = "" then LineAction.skip else LineAction.emit (JVal.str c) := h1
      by_cases hc : c = ""
      · rw [if_pos hc] at h2
        rw [List.cons_append, decodeLoop_cons_skip (by rw [lineStep_not_ollama _ hb]; exact h2), ih]
        subst hc
        simp
      · rw [if_neg hc] at h2
        rw [List.cons_append, decodeLoop_cons_emit (by rw [lineStep_not_ollama _ hb]; exact h2), ih]
        simp [List.filter_cons, hc]

/-! ### The claims -/

/-- Claim C1: for every well-formed newline-delimited-JSON (Ollama-family)
stream with a trailing done line, the decode loop yields each non-empty
`message.content` in order, the concatenation of the yielded fragments equals
the concatenation of the content values, and the loop ends at the done line
after processing it, reading none of the lines after it; in particular the
two-line scenario from the specification yields exactly the fragments `Hi`
and ` there` and nothing else. -/
theorem c1_ndjson_stream_decode :
    (∀ (pre cs : List String) (dLine dC : String) (extra : List String),
       List.Forall₂ NdContentLine pre cs → NdDoneLine dLine dC →
       decodeLoop "Ollama" (pre ++ dLine :: extra) =
         ⟨((cs ++ [dC]).filter (fun c => c != "")).map JVal.str, pre.length + 1, false⟩ ∧
       concatList ((decodeLoop "Ollama" (pre ++ dLine :: extra)).frags.map JVal.asStr) =
         concatList (cs ++ [dC])) ∧
    generate_response "Ollama" (FetchOutcome.response 200
      ["\x7b\"message\":\x7b\"content\":\"Hi\"\x7d\x7d\n",
       "\x7b\"message\":\x7b\"content\":\" there\"\x7d,\"done\":true\x7d\n"] none) =
      ⟨[JVal.str "Hi", JVal.str " there"], []⟩ := by
  constructor
  · intro pre cs dLine dC extra hpre hdone
    have main := ndjson_loop pre cs dLine dC extra hpre hdone
    refine ⟨main, ?_⟩
    simp only [main]
    rw [map_asStr_map_str, concatList_filter_ne]
  · rfl

/-- Witness for C1: a concrete well-formed stream discharging the
hypotheses, with a trailing line after the done line that is never read. -/
theorem c1_ndjson_stream_decode_witness :
    List.Forall₂ NdContentLine ["\x7b\"message\":\x7b\"content\":\"Hi\"\x7d\x7d\n"] ["Hi"] ∧
    NdDoneLine "\x7b\"message\":\x7b\"content\":\" there\"\x7d,\"done\":true\x7d\n" " there" ∧
    decodeLoop "Ollama"
      (["\x7b\"message\":\x7b\"content\":\"Hi\"\x7d\x7d\n"] ++
        "\x7b\"message\":\x7b\"content\":\" there\"\x7d,\"done\":true\x7d\n" ::
          ["\x7b\"message\":\x7b\"content\":\"never read\"\x7d\x7d\n"]) =
      ⟨[JVal.str "Hi", JVal.str " there"], 2, false⟩ := by
  have hc : NdContentLine "\x7b\"message\":\x7b\"content\":\"Hi\"\x7d\x7d\n" "Hi" := by
    unfold NdContentLine; rfl
  have hd : NdDoneLine "\x7b\"message\":\x7b\"content\":\" there\"\x7d,\"done\":true\x7d\n" " there" := by
    unfold NdDoneLine; rfl
  refine ⟨List.Forall₂.cons hc List.Forall₂.nil, hd, ?_⟩
  exact (c1_ndjson_stream_decode.1
    ["\x7b\"message\":\x7b\"content\":\"Hi\"\x7d\x7d\n"] ["Hi"]
    "\x7b\"message\":\x7b\"content\":\" there\"\x7d,\"done\":true\x7d\n" " there"
    ["\x7b\"message\":\x7b\"content\":\"never read\"\x7d\x7d\n"]
    (List.Forall₂.cons hc List.Forall₂.nil) hd).1

/-- Claim C2: for every backend of the SSE family (anything other than
Ollama) and every well-formed SSE stream ending in the terminal line, the
decode loop yields each non-empty `choices[0].delta.content` in order, its
concatenation equals the concatenation of the content values, lines without
the `data: ` prefix are ignored wherever they are interleaved and neither
change the concatenation nor end the loop, and the loop ends at the terminal
line yielding nothing for it and reading no later line. -/
theorem c2_sse_stream_decode :
    (∀ (backend : String), backend ≠ "Ollama" →
       ∀ (pre : List String) (ocs : List (Option String)) (dLine : String) (extra : List String),
       List.Forall₂ SseLineClass pre ocs → SseDoneLine dLine →
       decodeLoop backend (pre ++ dLine :: extra) =
         ⟨((ocs.filterMap id).filter (fun c => c != "")).map JVal.str, pre.length + 1, false⟩ ∧
       concatList ((decodeLoop backend (pre ++ dLine :: extra)).frags.map JVal.asStr) =
         concatList (ocs.filterMap id)) ∧
    (∀ line : String, strHasPrefix "data: " (pyStrip line) = false →
       sseLineStep line = LineAction.skip) := by
  constructor
  · intro backend hb pre ocs dLine extra hpre hdone
    have main := sse_loop hb pre ocs dLine extra hpre hdone
    refine ⟨main, ?_⟩
    simp only [main]
    rw [map_asStr_map_str, concatList_filter_ne]
  · intro line h
    simp [sseLineStep, h]

/-- Witness for C2: a concrete SSE stream with an interleaved comment line
and a blank line among two content lines, a terminal line, and a later line
that is never read. -/
theorem c2_sse_stream_decode_witness :
    ("LM Studio" : String) ≠ "Ollama" ∧
    List.Forall₂ SseLineClass
      ["data: \x7b\"choices\":[\x7b\"delta\":\x7b\"content\":\"Hi\"\x7d\x7d]\x7d\n",
       ": heartbeat\n",
       "\n",
       "data: \x7b\"choices\":[\x7b\"delta\":\x7b\"content\":\" there\"\x7d\x7d]\x7d\n"]
      [some "Hi", none, none, some " there"] ∧
    SseDoneLine "data: [DONE]\n" ∧
    decodeLoop "LM Studio"
      (["data: \x7b\"choices\":[\x7b\"delta\":\x7b\"content\":\"Hi\"\x7d\x7d]\x7d\n",
        ": heartbeat\n",
        "\n",
        "data: \x7b\"choices\":[\x7b\"delta\":\x7b\"content\":\" there\"\x7d\x7d]\x7d\n"] ++
        "data: [DONE]\n" :: ["data: \x7b\"choices\":[\x7b\"delta\":\x7b\"content\":\"never\"\x7d\x7d]\x7d\n"]) =
      ⟨[JVal.str "Hi", JVal.str " there"], 5, false⟩ := by
  have h1 : SseLineClass "data: \x7b\"choices\":[\x7b\"delta\":\x7b\"content\":\"Hi\"\x7d\x7d]\x7d\n" (some "Hi") := by
    unfold SseLineClass; rfl
  have h2 : SseLineClass ": heartbeat\n" none := by
    unfold SseLineClass; rfl
  have h3 : SseLineClass "\n" none := by
    unfold SseLineClass; rfl
  have h4 : SseLineClass "data: \x7b\"choices\":[\x7b\"delta\":\x7b\"content\":\" there\"\x7d\x7d]\x7d\n" (some " there") := by
    unfold SseLineClass; rfl
  have hd : SseDoneLine "data: [DONE]\n" := by
    unfold SseDoneLine; rfl
  have hall := List.Forall₂.cons h1 (List.Forall₂.cons h2 (List.Forall₂.cons h3
    (List.Forall₂.cons h4 List.Forall₂.nil)))
  refine ⟨by decide, hall, hd, ?_⟩
  exact (c2_sse_stream_decode.1 "LM Studio" (by decide)
    ["data: \x7b\"choices\":[\x7b\"delta\":\x7b\"content\":\"Hi\"\x7d\x7d]\x7d\n",
     ": heartbeat\n",
     "\n",
     "data: \x7b\"choices\":[\x7b\"delta\":\x7b\"content\":\" there\"\x7d\x7d]\x7d\n"]
    [some "Hi", none, none, some " there"]
    "data: [DONE]\n"
    ["data: \x7b\"choices\":[\x7b\"delta\":\x7b\"content\":\"never\"\x7d\x7d]\x7d\n"]
    hall hd).1

/-- Claim C3 counterexample: a 200 response whose body consists of one blank
line reaches natural end of stream having yielded zero fragments, yet no
sentinel fragment is yielded — the source gates the sentinel on
`lines_processed == 0`, not on the number of fragments. -/
theorem c3_counterexample :
    (generate_response "Ollama" (FetchOutcome.response 200 [" \n"] none)).frags = [] ∧
    (generate_response "Ollama" (FetchOutcome.response 200 [" \n"] none)).frags ≠
      [JVal.str "[Empty response]"] := by
  have h0 : (generate_response "Ollama" (FetchOutcome.response 200 [" \n"] none)).frags = [] := rfl
  refine ⟨h0, ?_⟩
  rw [h0]
  simp

/-- Claim C3, amended: the sentinel empty-response fragment is yielded
exactly when the 200 body contained zero lines (zero bytes); a 200 stream
that delivered at least one line and decoded without an escaping exception
yields exactly the decoded fragments, with no sentinel appended, even when
zero fragments were decoded. -/
theorem c3_empty_body_sentinel :
    (∀ (backend : String) (bodyText : Option String),
       generate_response backend (FetchOutcome.response 200 [] bodyText) =
         ⟨[JVal.str "[Empty response]"], []⟩) ∧
    (∀ (backend line : String) (rest : List String) (bodyText : Option String),
       (decodeLoop backend (line :: rest)).exnFlag = false →
       generate_response backend (FetchOutcome.response 200 (line :: rest) bodyText) =
         ⟨(decodeLoop backend (line :: rest)).frags, []⟩) := by
  constructor
  · intro backend bodyText
    rfl
  · intro backend line rest bodyText h
    simp [generate_response, h, decodeLoop_cons_pos backend line rest]

/-- Witness for C3: the blank-line body decodes without an exception and the
call yields exactly its zero decoded fragments and no sentinel. -/
theorem c3_empty_body_sentinel_witness :
    (decodeLoop "Ollama" [" \n"]).exnFlag = false ∧
    generate_response "Ollama" (FetchOutcome.response 200 [" \n"] none) =
      ⟨(decodeLoop "Ollama" [" \n"]).frags, []⟩ :=
  ⟨rfl, c3_empty_body_sentinel.2 "Ollama" " \n" [] none rfl⟩

/-- Claim C4 counterexample: on a 404 with body `not found` the single
yielded fragment is the generic provider message carrying only the status
code; the error body is not part of the fragment (it goes to the error log
only). -/
theorem c4_counterexample :
    (generate_response "Hugging Face" (FetchOutcome.response 404 [] (some "not found"))).frags =
      [JVal.str "Error from AI provider (Status 404). Check logs."] ∧
    strContains "Error from AI provider (Status 404). Check logs." "not found" = false := by
  exact ⟨rfl, by decide⟩

/-- Claim C4, amended: every non-200 response yields exactly one terminal
fragment naming the status code (`Error from AI provider (Status <code>).
Check logs.`), appends the full `API Error: Status <code> - <body>` message,
with the error body, to the side-channel error log, and terminates with no
body line read and no other fragment. -/
theorem c4_error_status_single_fragment (backend : String) (status : Nat)
    (bodyLines : List String) (errText : String) (h : status ≠ 200) :
    generate_response backend (FetchOutcome.response status bodyLines (some errText)) =
      ⟨[JVal.str ("Error from AI provider (Status " ++ toString status ++ "). Check logs.")],
       ["API Error: Status " ++ toString status ++ " - " ++ errText]⟩ := by
  simp only [generate_response]
  rw [if_neg h]
  rfl

/-- Witness for C4: a 404 with a non-empty body; the one fragment matches
the pattern naming status 404. -/
theorem c4_error_status_single_fragment_witness :
    (404 : Nat) ≠ 200 ∧
    generate_response "Hugging Face" (FetchOutcome.response 404 ["data: unread\n"] (some "not found")) =
      ⟨[JVal.str "Error from AI provider (Status 404). Check logs."],
       ["API Error: Status 404 - not found"]⟩ ∧
    strContains "Error from AI provider (Status 404). Check logs." "Status 404" = true := by
  refine ⟨by decide, ?_, by decide⟩
  exact c4_error_status_single_fragment "Hugging Face" 404 ["data: unread\n"] "not found" (by decide)

/-- Claim C5: a line that fails to parse as JSON is skipped in both decode
families: the Ollama branch skips any non-blank unparseable line, the SSE
branch skips any data line whose payload is neither the terminal sentinel
nor empty nor parseable, a skipped line leaves the loop running with the
fragments and exception state of the rest of the stream, and the concrete
stream with one malformed line between two valid content lines yields
exactly the two valid fragments and an empty error log. -/
theorem c5_malformed_line_skipped :
    (∀ line : String, pyStrip line ≠ "" → jsonParse (pyStrip line) = none →
       ollamaLineStep line = LineAction.skip) ∧
    (∀ line : String, strHasPrefix "data: " (pyStrip line) = true →
       pyStrip (strDrop 6 (pyStrip line)) ≠ "[DONE]" →
       pyStrip (strDrop 6 (pyStrip line)) ≠ "" →
       jsonParse (pyStrip (strDrop 6 (pyStrip line))) = none →
       sseLineStep line = LineAction.skip) ∧
    (∀ (backend line : String) (rest : List String),
       lineStep backend line = LineAction.skip →
       decodeLoop backend (line :: rest) =
         ⟨(decodeLoop backend rest).frags, (decodeLoop backend rest).linesProcessed + 1,
          (decodeLoop backend rest).exnFlag⟩) ∧
    generate_response "Ollama" (FetchOutcome.response 200
      ["\x7b\"message\":\x7b\"content\":\"Hi\"\x7d\x7d\n",
       "This is not JSON\n",
       "\x7b\"message\":\x7b\"content\":\"Bye\"\x7d\x7d\n"] none) =
      ⟨[JVal.str "Hi", JVal.str "Bye"], []⟩ := by
  refine ⟨?_, ?_, ?_, rfl⟩
  · intro line h1 h2
    simp [ollamaLineStep, h1, h2]
  · intro line h1 h2 h3 h4
    simp [sseLineStep, h1, h2, h3, h4]
  · intro backend line rest h
    exact decodeLoop_cons_skip h

/-- Witness for C5: the malformed middle line of the scenario satisfies the
hypotheses of the Ollama part and is skipped. -/
theorem c5_malformed_line_skipped_witness :
    pyStrip "This is not JSON\n" ≠ "" ∧
    jsonParse (pyStrip "This is not JSON\n") = none ∧
    ollamaLineStep "This is not JSON\n" = LineAction.skip := by
  refine ⟨by decide, by rfl, ?_⟩
  exact c5_malformed_line_skipped.1 "This is not JSON\n" (by decide) (by rfl)

/-- Claim C6 counterexample: when the probe of the configured default fails,
`auto_detect_endpoint` returns `None`, not the configured default URL of the
protocol — the unconditional fallback to the default lives in the caller. -/
theorem c6_counterexample :
    auto_detect_endpoint (fun _ => false) "Ollama" = none ∧
    (cfgGet BACKEND_CONFIG "Ollama").map BackendCfg.default_url = some "http://127.0.0.1:11434" ∧
    auto_detect_endpoint (fun _ => false) "Ollama" ≠ some "http://127.0.0.1:11434" := by
  have h0 : auto_detect_endpoint (fun _ => false) "Ollama" = none := rfl
  refine ⟨h0, rfl, ?_⟩
  rw [h0]
  simp

/-- Claim C6, amended: `auto_detect_endpoint` returns the configured default
when the probe of that default reports it reachable and `None` otherwise;
the resolution expression of `run_prototype`, which applies `or default` to
that result, produces the configured default URL in both outcomes of the
probe, for each supported protocol. -/
theorem c6_resolver_default_fallback (probeOk : String → Bool) :
    (auto_detect_endpoint probeOk "Ollama" =
       if probeOk "http://127.0.0.1:11434" then some "http://127.0.0.1:11434" else none) ∧
    resolved_backend_url probeOk "LM Studio" = some "http://127.0.0.1:1234/v1" ∧
    resolved_backend_url probeOk "Ollama" = some "http://127.0.0.1:11434" ∧
    resolved_backend_url probeOk "Hugging Face" =
      some "https://router.huggingface.co/novita/v3/openai/chat/completions" := by
  refine ⟨?_, ?_, ?_, ?_⟩
  · simp only [auto_detect_endpoint, cfgGet, BACKEND_CONFIG]
    cases h : probeOk "http://127.0.0.1:11434" <;> simp [h]
  · simp only [resolved_backend_url, auto_detect_endpoint, cfgGet, BACKEND_CONFIG]
    cases h : probeOk "http://127.0.0.1:1234/v1" <;> simp [h]
  · simp only [resolved_backend_url, auto_detect_endpoint, cfgGet, BACKEND_CONFIG]
    cases h : probeOk "http://127.0.0.1:11434" <;> simp [h]
  · simp only [resolved_backend_url, auto_detect_endpoint, cfgGet, BACKEND_CONFIG]
    cases h : probeOk "https://router.huggingface.co/novita/v3/openai/chat/completions" <;> simp [h]

/-- Witness for C6: resolution with an always-failing probe still produces
the configured Ollama default. -/
theorem c6_resolver_default_fallback_witness :
    resolved_backend_url (fun _ => false) "Ollama" = some "http://127.0.0.1:11434" :=
  (c6_resolver_default_fallback (fun _ => false)).2.2.1

/-- Claim C7 counterexample: three attempts that all fail with a non-2xx
status make no backoff sleep at all — the source sleeps only inside the
network-error handler — refuting a sleep between every pair of consecutive
failed attempts (which would be 2 sleeps here). -/
theorem c7_counterexample :
    probe_backend_url "Ollama" (fun _ => AttemptOutcome.status 500) 3 = ⟨false, 3, 0⟩ ∧
    (probe_backend_url "Ollama" (fun _ => AttemptOutcome.status 500) 3).sleeps ≠ 3 - 1 := by
  exact ⟨by decide, by decide⟩

/-- Claim C7, amended: the probe makes at most `retries` attempts (default
3); a network-level error and a non-2xx status are both failed attempts that
fall through to the next attempt rather than aborting, but the one-second
backoff sleep happens only after a network-level failure that is not the
last attempt; an always-unreachable address with three retries gives false
after exactly 3 attempts and 2 sleeps, while all-non-2xx gives false after
exactly 3 attempts and 0 sleeps. -/
theorem c7_probe_retry_schedule :
    (∀ (backend : String) (f : Nat → AttemptOutcome) (retries : Nat),
       (probe_backend_url backend f retries).attempts ≤ retries) ∧
    probe_backend_url "Ollama" (fun _ => AttemptOutcome.netErr) 3 = ⟨false, 3, 2⟩ ∧
    probe_backend_url "Ollama" (fun _ => AttemptOutcome.status 503) 3 = ⟨false, 3, 0⟩ ∧
    probe_backend_url "Hugging Face"
      (fun i => if i = 0 then AttemptOutcome.status 503
                else if i = 1 then AttemptOutcome.netErr else AttemptOutcome.status 200) 3 =
      ⟨true, 3, 1⟩ := by
  refine ⟨?_, by decide, by decide, by decide⟩
  intro backend f retries
  unfold probe_backend_url
  rw [ite_self]
  exact probeLoop_attempts_le f 0 retries

/-- Witness for C7: the attempts bound applied at a concrete run. -/
theorem c7_probe_retry_schedule_witness :
    (probe_backend_url "Ollama" (fun _ => AttemptOutcome.netErr) 5).attempts ≤ 5 :=
  c7_probe_retry_schedule.1 "Ollama" (fun _ => AttemptOutcome.netErr) 5

/-- Claim C8: the probe is a total boolean function — every attempt outcome,
including an exception of an unexpected class, produces a boolean result —
and it returns true exactly when some attempt within the retry budget
receives a 200 or 201 response (the success statuses of the source and of
section 6 of the specification) and every earlier attempt failed with a
network error or a non-success status; in every other case, attempts
exhausted or an unexpected exception first, it returns false. -/
theorem c8_probe_never_raises_success_iff (backend : String) (f : Nat → AttemptOutcome)
    (retries : Nat) :
    (probe_backend_url backend f retries).ok = true ↔
      ∃ i, i < retries ∧ probeSuccessOutcome (f i) ∧
        ∀ j, j < i → probeFailContinue (f j) := by
  unfold probe_backend_url
  rw [ite_self]
  have h := probeLoop_ok_iff f retries 0
  simpa using h

/-- Witness for C8: a first-attempt 200 makes the probe return true. -/
theorem c8_probe_never_raises_success_iff_witness :
    (probe_backend_url "Ollama" (fun _ => AttemptOutcome.status 200) 3).ok = true := by
  refine (c8_probe_never_raises_success_iff "Ollama" (fun _ => AttemptOutcome.status 200) 3).mpr ?_
  exact ⟨0, by omega, Or.inl rfl, fun j hj => absurd hj (by omega)⟩

/-- Claim C9: the `EMPTY_SUCCESS` classification of `test_model` is
unreachable: a stream whose fragments concatenate to the empty string with
no error marker is classified `FAIL`, because the empty concatenation
already fails the `SUCCESS` guard that the relabelling conditional then
requires; in particular the empty fragment list, as produced for example by
a 200 Ollama stream whose single line carries an empty content, classifies
as `FAIL` where the claim expects the empty-success state. -/
theorem c9_empty_success_unreachable (frags : List String) :
    test_model_status frags ≠ "EMPTY_SUCCESS" ∧
    test_model_status [] = "FAIL" ∧
    (generate_response "Ollama" (FetchOutcome.response 200
       ["\x7b\"message\":\x7b\"content\":\"\"\x7d\x7d\n"] none)).frags = [] := by
  refine ⟨?_, by rfl, rfl⟩
  unfold test_model_status
  by_cases h : concatList frags = ""
  · simp [h]
  · simp only [h, if_neg, ite_false, ne_eq]
    simp [h]
    split <;> simp

/-- Witness for C9: no fragment list, here a nonempty one, reaches the
empty-success state. -/
theorem c9_empty_success_unreachable_witness :
    test_model_status ["ok"] ≠ "EMPTY_SUCCESS" :=
  (c9_empty_success_unreachable ["ok"]).1

/-- Claim C10: a 200 SSE stream with a data line whose payload is valid JSON
carrying an empty `choices` list makes the per-line extraction raise
(`IndexError` from indexing the empty list), the exception escapes the
per-line parse handler to the outermost handler, and the stream terminates
with the single generic unexpected-error fragment instead of skipping the
line: the later valid content line and the terminal line are never
processed. -/
theorem c10_sse_empty_choices_escapes :
    jsonParse "\x7b\"choices\": []\x7d" = some (JVal.obj [("choices", JVal.arr [])]) ∧
    sseLineStep "data: \x7b\"choices\": []\x7d\n" = LineAction.exn ∧
    generate_response "LM Studio" (FetchOutcome.response 200
      ["data: \x7b\"choices\": []\x7d\n",
       "data: \x7b\"choices\":[\x7b\"delta\":\x7b\"content\":\"Hi\"\x7d\x7d]\x7d\n",
       "data: [DONE]\n"] none) =
      ⟨[JVal.str "Sophia encountered an unexpected problem. Details have been logged."],
       ["Unhandled exception in generate_response"]⟩ :=
  ⟨rfl, rfl, rfl⟩
